import Mathlib

/-!
Shallow embedding of the `searx` engine adapter
(`src/engines/searx.rs`, function `results`) of the websurfx repository.

The HTTP transport, the HTML parser and the CSS-selector engine are
external black boxes in the spec; they are modelled as explicit inputs:

* `Transport` — the outcome of the reqwest send/text calls (a send
  failure, or a response with a status code and a body-read outcome).
  The Rust code never consults the status code, so it is carried but
  ignored, exactly as in the source.
* `parseHtml : String → HtmlDoc` — the black-box `Html::parse_document`
  composed with the fixed selector queries the adapter performs:
  `HtmlDoc` records, in document order, the nodes matching
  `#urls>.dialog-error>p` and the result cards matching `.result`;
  each `Card` records the nodes matching `h3>a` and `.content` inside it.
* `sc : String → Bool` — whether `Selector::parse` succeeds on a given
  selector string (black-box CSS selector compilation).
* `hv : String → Bool` — whether `str::parse::<HeaderValue>` succeeds on
  a given header value string.

Rust panics (the `.unwrap()` calls on per-card sub-elements) are modelled
by the dedicated outcome `Outcome.panicked`.
-/

/-- The normalized result record (`RawSearchResult` in
`search_results_handler::aggregation_models`), as used by the adapter:
title, visiting URL, description and the engine attribution list. -/
structure RawSearchResult where
  title : String
  visiting_url : String
  description : String
  engines : List String
deriving DecidableEq, Repr

/-- The closed error taxonomy (`EngineError` in `engine_models`). -/
inductive EngineError where
  | RequestError
  | EmptyResultSet
  | UnexpectedError
deriving DecidableEq, Repr

/-- A selected HTML element as the adapter observes it: its inner HTML
and its `href` attribute (if any). -/
structure Element where
  innerHtml : String
  href : Option String
deriving DecidableEq, Repr

/-- One result card (a node matching `.result`): the elements matching
`h3>a` and the elements matching `.content` inside it, in document order. -/
structure Card where
  titleAnchors : List Element
  contents : List Element
deriving DecidableEq, Repr

/-- A parsed response body, abstracted to the two selector queries the
adapter runs against the whole document: the nodes matching
`#urls>.dialog-error>p` and the result cards matching `.result`. -/
structure HtmlDoc where
  dialogErrorPs : List Element
  resultCards : List Card
deriving DecidableEq, Repr

/-- The outcome of the reqwest transaction: `send()` may fail with a
transport diagnostic; otherwise a response arrives with an HTTP status
code and a body whose read (`text()`) may itself fail. -/
inductive Transport where
  | sendFailure (diag : String)
  | response (status : Nat) (body : Except String String)
deriving Repr

/-- The adapter call outcome: the returned mapping (modelled as an
insertion-ordered association list, see `collectMap`), a typed error with
its attached diagnostic, or a Rust panic. -/
inductive Outcome where
  | ok (m : List (String × RawSearchResult))
  | err (e : EngineError) (diag : Option String)
  | panicked
deriving DecidableEq, Repr

/-! ## Static templates of the adapter -/

/-- Selector string for the no-results dialog (line 80 of the source). -/
def selNoResult : String := "#urls>.dialog-error>p"

/-- Selector string for the result cards (line 92). -/
def selResult : String := ".result"

/-- Selector string for the title anchor, also used for the URL (lines 95 and 98). -/
def selTitle : String := "h3>a"

/-- Selector string for the description node (line 102). -/
def selDesc : String := ".content"

/-- The engine-specific no-results sentinel phrase (line 86). -/
def sentinelText : String :=
  "we didn't find any results. Please use another query or search in more categories"

/-- The spoofed referer header value (line 51). -/
def refererValue : String := "https://google.com/"

/-- The content-type header value (line 58). -/
def contentTypeValue : String := "application/x-www-form-urlencoded"

/-- The engine-specific preference cookie (line 63), verbatim. -/
def cookieValue : String := "categories=general; language=auto; locale=en; autocomplete=duckduckgo; image_proxy=1; method=POST; safesearch=2; theme=simple; results_on_new_tab=1; doi_resolver=oadoi.org; simple_style=auto; center_alignment=1; query_in_title=1; infinite_scroll=0; disabled_engines=; enabled_engines=\"archive is__general\\054yep__general\\054curlie__general\\054currency__general\\054ddg definitions__general\\054wikidata__general\\054duckduckgo__general\\054tineye__general\\054lingva__general\\054startpage__general\\054yahoo__general\\054wiby__general\\054marginalia__general\\054alexandria__general\\054wikibooks__general\\054wikiquote__general\\054wikisource__general\\054wikiversity__general\\054wikivoyage__general\\054dictzone__general\\054seznam__general\\054mojeek__general\\054naver__general\\054wikimini__general\\054brave__general\\054petalsearch__general\\054goo__general\"; disabled_plugins=; enabled_plugins=\"searx.plugins.hostname_replace\\054searx.plugins.oa_doi_rewrite\\054searx.plugins.vim_hotkeys\"; tokens=; maintab=on; enginetab=on"

/-! ## Request construction (lines 38–63) -/

/-- The request URL: `format!("https://searx.work/search?q={query}&pageno={page}")`. -/
def buildUrl (query : String) (page : Nat) : String :=
  "https://searx.work/search?q=" ++ query ++ "&pageno=" ++ toString page

/-- The four headers the adapter inserts. -/
structure HeaderMap where
  userAgent : String
  referer : String
  contentType : String
  cookie : String
deriving DecidableEq, Repr

/-- Header-map construction (lines 41–63): each value is parsed into a
`HeaderValue`; a parse failure is `UnexpectedError` (via
`change_context`), checked in source order: user agent, referer,
content type, cookie. -/
def buildHeaderMap (hv : String → Bool) (user_agent : String) :
    Except EngineError HeaderMap :=
  if hv user_agent then
    if hv refererValue then
      if hv contentTypeValue then
        if hv cookieValue then
          Except.ok ⟨user_agent, refererValue, contentTypeValue, cookieValue⟩
        else Except.error EngineError.UnexpectedError
      else Except.error EngineError.UnexpectedError
    else Except.error EngineError.UnexpectedError
  else Except.error EngineError.UnexpectedError

/-- The request sent by `reqwest::Client::new().get(url).headers(header_map)`. -/
structure Request where
  url : String
  headers : HeaderMap
deriving DecidableEq, Repr

/-- Request construction, lines 38–63: the URL is built from the query
and page, the headers from the static templates plus the user agent. -/
def buildRequest (hv : String → Bool) (query : String) (page : Nat)
    (user_agent : String) : Except EngineError Request :=
  let url := buildUrl query page
  match buildHeaderMap hv user_agent with
  | Except.error e => Except.error e
  | Except.ok hm => Except.ok ⟨url, hm⟩

/-! ## Scraping (lines 78–137) -/

/-- Unicode white space, as Rust's `char::is_whitespace` (the
`White_Space` property) used by `str::trim`. -/
def isRustWhitespace (c : Char) : Bool :=
  c.val = 0x09 || c.val = 0x0A || c.val = 0x0B || c.val = 0x0C || c.val = 0x0D ||
  c.val = 0x20 || c.val = 0x85 || c.val = 0xA0 || c.val = 0x1680 ||
  (0x2000 ≤ c.val && c.val ≤ 0x200A) ||
  c.val = 0x2028 || c.val = 0x2029 || c.val = 0x202F || c.val = 0x205F || c.val = 0x3000

/-- Rust's `str::trim`: strip leading and trailing white space. -/
def rustTrim (s : String) : String :=
  ⟨((s.data.dropWhile isRustWhitespace).reverse.dropWhile isRustWhitespace).reverse⟩

/-- The sentinel test of lines 84–90: `document.select(&no_result).nth(1)`
takes the element at index 1 (the second match) and compares its inner
HTML with the sentinel phrase. -/
def sentinelHit (document : HtmlDoc) : Bool :=
  match document.dialogErrorPs.get? 1 with
  | some el => el.innerHtml = sentinelText
  | none => false

/-- Extraction of one result card (the closure of lines 109–135). Each
`.next().unwrap()` / `.attr("href").unwrap()` panics when the element or
attribute is missing; `none` models that panic. The title and the
description are `inner_html().trim()`, the URL is the `href` attribute
verbatim, and the engine list is `["searx"]`. -/
def extractCard (card : Card) : Option RawSearchResult :=
  match card.titleAnchors.head? with
  | none => none
  | some titleEl =>
    match card.titleAnchors.head? with
    | none => none
    | some urlEl =>
      match urlEl.href with
      | none => none
      | some href =>
        match card.contents.head? with
        | none => none
        | some descEl =>
          some ⟨rustTrim titleEl.innerHtml, href, rustTrim descEl.innerHtml, ["searx"]⟩

/-- Extraction of all cards: the `.map(...)` stage driven by `collect`;
a panic in any card aborts the whole call (`none`). -/
def extractAll : List Card → Option (List RawSearchResult)
  | [] => some []
  | c :: cs =>
    match extractCard c, extractAll cs with
    | some r, some rs => some (r :: rs)
    | _, _ => none

/-- One insertion into the `HashMap`: a later value for an existing key
overwrites the earlier one; a new key is appended. -/
def insertKV : List (String × RawSearchResult) → String → RawSearchResult →
    List (String × RawSearchResult)
  | [], k, v => [(k, v)]
  | (k', v') :: rest, k, v =>
    if k' = k then (k, v) :: rest else (k', v') :: insertKV rest k v

/-- The `collect()` into `HashMap<String, RawSearchResult>` keyed by
`search_result.visiting_url` (lines 136–137). -/
def collectMap (recs : List RawSearchResult) : List (String × RawSearchResult) :=
  recs.foldl (fun m r => insertKV m r.visiting_url r) []

/-- The scraping stage of the adapter (lines 78–137), on the parsed
document: compile the no-results selector; test the sentinel at match
index 1; compile the card selectors in source order (the title selector
twice, as in the source); extract every card, panicking on a malformed
card; collect into the map. -/
def scrapeDocument (document : HtmlDoc) (sc : String → Bool) : Outcome :=
  if sc selNoResult then
    if sentinelHit document then
      Outcome.err EngineError.EmptyResultSet none
    else if sc selResult then
      if sc selTitle then
        if sc selTitle then
          if sc selDesc then
            match extractAll document.resultCards with
            | none => Outcome.panicked
            | some recs => Outcome.ok (collectMap recs)
          else Outcome.err EngineError.UnexpectedError
            (some ("invalid CSS selector: " ++ selDesc))
        else Outcome.err EngineError.UnexpectedError
          (some ("invalid CSS selector: " ++ selTitle))
      else Outcome.err EngineError.UnexpectedError
        (some ("invalid CSS selector: " ++ selTitle))
    else Outcome.err EngineError.UnexpectedError
      (some ("invalid CSS selector: " ++ selResult))
  else Outcome.err EngineError.UnexpectedError
    (some ("invalid CSS selector: " ++ selNoResult))

/-- The adapter body, `results` of `src/engines/searx.rs`, lines 31–138.
Control flow in source order: build the request (URL then header map,
each header value checked); send it (transport failures at send or at
body read are `RequestError` carrying the transport diagnostic; the
status code is never consulted); parse the document; scrape it. -/
def results (query : String) (page : Nat) (user_agent : String)
    (hv : String → Bool) (transport : Transport)
    (parseHtml : String → HtmlDoc) (sc : String → Bool) : Outcome :=
  match buildRequest hv query page user_agent with
  | Except.error e => Outcome.err e none
  | Except.ok _request =>
    match transport with
    | Transport.sendFailure d => Outcome.err EngineError.RequestError (some d)
    | Transport.response _status (Except.error d) =>
        Outcome.err EngineError.RequestError (some d)
    | Transport.response _status (Except.ok body) =>
        scrapeDocument (parseHtml body) sc

/-! ## Shared concrete instantiations of the black boxes -/

/-- Every selector compiles / every header value parses. -/
def allTrue : String → Bool := fun _ => true

/-- A parse function returning a fixed document for every body. -/
def constHtml (d : HtmlDoc) : String → HtmlDoc := fun _ => d

/-- The empty document: no dialog nodes, no result cards. -/
def emptyDoc : HtmlDoc := ⟨[], []⟩

/-- A shorthand for a successful transport with status 200. -/
def okTransport (body : String) : Transport :=
  Transport.response 200 (Except.ok body)

/-! ## Concrete documents used in witnesses and counterexamples -/

/-- A well-formed result card with whitespace around title and description. -/
def goodCard : Card :=
  ⟨[⟨" Good title\n", some "https://good.example/"⟩], [⟨"\n A description ", none⟩]⟩

/-- The record extracted from `goodCard`. -/
def goodRec : RawSearchResult :=
  ⟨"Good title", "https://good.example/", "A description", ["searx"]⟩

/-- A document holding only `goodCard`. -/
def goodDoc : HtmlDoc := ⟨[], [goodCard]⟩

/-- A malformed result card: no `h3>a` title anchor inside it. -/
def titlelessCard : Card := ⟨[], [⟨"desc", none⟩]⟩

/-- A document with one well-formed and one malformed result card. -/
def mixedDoc : HtmlDoc := ⟨[], [goodCard, titlelessCard]⟩

/-- A dialog node carrying the sentinel phrase. -/
def sentinelEl : Element := ⟨sentinelText, none⟩

/-- A document whose only `#urls>.dialog-error>p` match carries the sentinel. -/
def singleSentinelDoc : HtmlDoc := ⟨[sentinelEl], []⟩

/-- A document whose second `#urls>.dialog-error>p` match carries the sentinel. -/
def doubleSentinelDoc : HtmlDoc := ⟨[⟨"Error!", none⟩, sentinelEl], []⟩

/-- A card whose anchor has an empty `href` attribute. -/
def emptyHrefCard : Card := ⟨[⟨"t", some ""⟩], [⟨"d", none⟩]⟩

/-- A document holding only `emptyHrefCard`. -/
def emptyHrefDoc : HtmlDoc := ⟨[], [emptyHrefCard]⟩

/-- First of two cards sharing one destination URL. -/
def dupCardA : Card := ⟨[⟨"first", some "https://dup.example/"⟩], [⟨"da", none⟩]⟩

/-- Second of two cards sharing one destination URL. -/
def dupCardB : Card := ⟨[⟨"second", some "https://dup.example/"⟩], [⟨"db", none⟩]⟩

/-- A document with two result cards sharing one destination URL. -/
def dupDoc : HtmlDoc := ⟨[], [dupCardA, dupCardB]⟩

/-- The record extracted from `dupCardB` (the one kept by the map). -/
def dupRecB : RawSearchResult := ⟨"second", "https://dup.example/", "db", ["searx"]⟩

/-- A selector-compilation oracle that fails exactly on `.result`. -/
def scNoDotResult : String → Bool := fun s => !(s == ".result")

/-- Every card whose first title anchor carries an `href` carries a
non-empty one (decidable side condition used by the amended C7). -/
def cardHrefsNonempty (cs : List Card) : Bool :=
  cs.all fun c =>
    match c.titleAnchors.head? with
    | none => true
    | some el =>
      match el.href with
      | none => true
      | some u => !(u == "")

/-! ## Trimmedness -/

/-- No white space at an optional edge character. -/
def notWSOpt (p : Char → Bool) : Option Char → Bool
  | none => true
  | some c => !p c

/-- A string with neither leading nor trailing white space. -/
def edgeTrimmed (s : String) : Bool :=
  notWSOpt isRustWhitespace s.data.head? && notWSOpt isRustWhitespace s.data.getLast?

/-! ## Theorems. Sanity checks of the embedding on concrete inputs first. -/

example :
    results "q" 1 "ua" allTrue (okTransport "b") (constHtml emptyDoc) allTrue
      = Outcome.ok [] := rfl

example :
    results "q" 1 "ua" allTrue (Transport.sendFailure "dns")
      (constHtml emptyDoc) allTrue
      = Outcome.err EngineError.RequestError (some "dns") := rfl

example : rustTrim "  a b\n" = "a b" := by decide

example :
    results "q" 1 "ua" allTrue (okTransport "b") (constHtml mixedDoc) allTrue
      = Outcome.panicked := rfl

example :
    results "q" 1 "ua" allTrue (okTransport "b") (constHtml doubleSentinelDoc) allTrue
      = Outcome.err EngineError.EmptyResultSet none := rfl

/-! ## Helper lemmas on trimming -/

/-- The head of `dropWhile p` never satisfies `p`. -/
theorem head?_dropWhile_not (p : Char → Bool) :
    ∀ (l : List Char) (c : Char), (l.dropWhile p).head? = some c → p c = false := by
  intro l
  induction l with
  | nil => intro c h; simp [List.dropWhile] at h
  | cons a as ih =>
    intro c h
    rw [List.dropWhile_cons] at h
    by_cases hpa : p a
    · rw [if_pos hpa] at h
      exact ih c h
    · rw [if_neg hpa] at h
      simp only [List.head?_cons, Option.some.injEq] at h
      subst h
      exact Bool.eq_false_iff.mpr hpa

/-- The last element survives `dropWhile` when the result is non-empty. -/
theorem getLast?_dropWhile (p : Char → Bool) :
    ∀ (l : List Char) (c : Char), (l.dropWhile p).getLast? = some c →
      l.getLast? = some c := by
  intro l
  induction l with
  | nil => intro c h; simp [List.dropWhile] at h
  | cons a as ih =>
    intro c h
    rw [List.dropWhile_cons] at h
    by_cases hpa : p a
    · rw [if_pos hpa] at h
      have h2 := ih c h
      cases as with
      | nil => simp at h2
      | cons b bs => rw [List.getLast?_cons_cons]; exact h2
    · rw [if_neg hpa] at h
      exact h

/-- The output of `rustTrim` has no leading or trailing white space. -/
theorem edgeTrimmed_rustTrim (s : String) : edgeTrimmed (rustTrim s) = true := by
  have hdata : (rustTrim s).data
      = ((s.data.dropWhile isRustWhitespace).reverse.dropWhile
          isRustWhitespace).reverse := rfl
  unfold edgeTrimmed
  rw [hdata, Bool.and_eq_true]
  refine ⟨?_, ?_⟩
  · rw [List.head?_reverse]
    cases hh : ((s.data.dropWhile isRustWhitespace).reverse.dropWhile
        isRustWhitespace).getLast? with
    | none => rfl
    | some c =>
      have h2 := getLast?_dropWhile isRustWhitespace _ c hh
      rw [List.getLast?_reverse] at h2
      have h3 := head?_dropWhile_not isRustWhitespace _ c h2
      simp [notWSOpt, h3]
  · rw [List.getLast?_reverse]
    cases hh : ((s.data.dropWhile isRustWhitespace).reverse.dropWhile
        isRustWhitespace).head? with
    | none => rfl
    | some c =>
      have h3 := head?_dropWhile_not isRustWhitespace _ c hh
      simp [notWSOpt, h3]

/-! ## Helper lemmas on the map built by `collect` -/

/-- A key of `insertKV m k v` is a key of `m` or is `k`. -/
theorem mem_keys_insertKV :
    ∀ (m : List (String × RawSearchResult)) (k a : String) (v : RawSearchResult),
      a ∈ (insertKV m k v).map Prod.fst → a ∈ m.map Prod.fst ∨ a = k := by
  intro m
  induction m with
  | nil =>
    intro k a v h
    simp [insertKV] at h
    exact Or.inr h
  | cons pr rest ih =>
    intro k a v h
    obtain ⟨k', v'⟩ := pr
    simp only [insertKV] at h
    split at h
    · simp only [List.map_cons, List.mem_cons] at h
      rcases h with h | h
      · exact Or.inr h
      · exact Or.inl (by rw [List.map_cons]; exact List.mem_cons_of_mem _ h)
    · simp only [List.map_cons, List.mem_cons] at h
      rcases h with h | h
      · exact Or.inl (by rw [List.map_cons]; exact h ▸ List.mem_cons_self _ _)
      · rcases ih k a v h with h' | h'
        · exact Or.inl (by rw [List.map_cons]; exact List.mem_cons_of_mem _ h')
        · exact Or.inr h'

/-- `insertKV` preserves distinctness of keys. -/
theorem nodup_keys_insertKV :
    ∀ (m : List (String × RawSearchResult)) (k : String) (v : RawSearchResult),
      (m.map Prod.fst).Nodup → ((insertKV m k v).map Prod.fst).Nodup := by
  intro m
  induction m with
  | nil => intro k v _; simp [insertKV]
  | cons pr rest ih =>
    intro k v hnd
    obtain ⟨k', v'⟩ := pr
    simp only [List.map_cons, List.nodup_cons] at hnd
    simp only [insertKV]
    split
    next he =>
      subst he
      simp only [List.map_cons, List.nodup_cons]
      exact hnd
    next he =>
      simp only [List.map_cons, List.nodup_cons]
      refine ⟨?_, ih k v hnd.2⟩
      intro hmem
      rcases mem_keys_insertKV rest k k' v hmem with h | h
      · exact hnd.1 h
      · exact he h

/-- `insertKV` grows the map by at most one entry. -/
theorem length_insertKV :
    ∀ (m : List (String × RawSearchResult)) (k : String) (v : RawSearchResult),
      (insertKV m k v).length ≤ m.length + 1 := by
  intro m
  induction m with
  | nil => intro k v; simp [insertKV]
  | cons pr rest ih =>
    intro k v
    obtain ⟨k', v'⟩ := pr
    simp only [insertKV]
    split
    · simp
    · simp only [List.length_cons]
      exact Nat.succ_le_succ (ih k v)

/-- An entry of `insertKV m k v` is an entry of `m` or is `(k, v)`. -/
theorem mem_insertKV :
    ∀ (m : List (String × RawSearchResult)) (k : String) (v : RawSearchResult)
      (pr : String × RawSearchResult), pr ∈ insertKV m k v → pr ∈ m ∨ pr = (k, v) := by
  intro m
  induction m with
  | nil =>
    intro k v pr h
    simp [insertKV] at h
    exact Or.inr h
  | cons hd rest ih =>
    intro k v pr h
    obtain ⟨k', v'⟩ := hd
    simp only [insertKV] at h
    split at h
    · rcases List.mem_cons.mp h with h | h
      · exact Or.inr h
      · exact Or.inl (List.mem_cons_of_mem _ h)
    · rcases List.mem_cons.mp h with h | h
      · exact Or.inl (h ▸ List.mem_cons_self _ _)
      · rcases ih k v pr h with h' | h'
        · exact Or.inl (List.mem_cons_of_mem _ h')
        · exact Or.inr h'

/-- Keys stay distinct along the `collect` fold. -/
theorem foldl_insert_nodup :
    ∀ (recs : List RawSearchResult) (m : List (String × RawSearchResult)),
      (m.map Prod.fst).Nodup →
      ((recs.foldl (fun m r => insertKV m r.visiting_url r) m).map Prod.fst).Nodup := by
  intro recs
  induction recs with
  | nil => intro m h; simpa using h
  | cons r rs ih =>
    intro m h
    simp only [List.foldl_cons]
    exact ih _ (nodup_keys_insertKV m _ r h)

/-- Every entry produced by the `collect` fold comes from the accumulator
or from one of the records, keyed by its `visiting_url`. -/
theorem foldl_insert_mem :
    ∀ (recs : List RawSearchResult) (m : List (String × RawSearchResult))
      (pr : String × RawSearchResult),
      pr ∈ recs.foldl (fun m r => insertKV m r.visiting_url r) m →
      pr ∈ m ∨ ∃ r ∈ recs, pr = (r.visiting_url, r) := by
  intro recs
  induction recs with
  | nil =>
    intro m pr h
    simp only [List.foldl_nil] at h
    exact Or.inl h
  | cons r rs ih =>
    intro m pr h
    simp only [List.foldl_cons] at h
    rcases ih _ pr h with h' | h'
    · rcases mem_insertKV m _ r pr h' with h'' | h''
      · exact Or.inl h''
      · exact Or.inr ⟨r, List.mem_cons_self _ _, h''⟩
    · obtain ⟨r', hr', he⟩ := h'
      exact Or.inr ⟨r', List.mem_cons_of_mem _ hr', he⟩

/-- The `collect` fold adds at most one entry per record. -/
theorem foldl_insert_length :
    ∀ (recs : List RawSearchResult) (m : List (String × RawSearchResult)),
      (recs.foldl (fun m r => insertKV m r.visiting_url r) m).length
        ≤ m.length + recs.length := by
  intro recs
  induction recs with
  | nil => intro m; simp
  | cons r rs ih =>
    intro m
    simp only [List.foldl_cons, List.length_cons]
    have h1 := ih (insertKV m r.visiting_url r)
    have h2 := length_insertKV m r.visiting_url r
    omega

/-- The keys of the collected map are distinct. -/
theorem collectMap_keys_nodup (recs : List RawSearchResult) :
    ((collectMap recs).map Prod.fst).Nodup :=
  foldl_insert_nodup recs [] (by simp)

/-- Every entry of the collected map is one of the records keyed by its
`visiting_url`. -/
theorem collectMap_mem (recs : List RawSearchResult) (pr : String × RawSearchResult)
    (h : pr ∈ collectMap recs) : ∃ r ∈ recs, pr = (r.visiting_url, r) := by
  rcases foldl_insert_mem recs [] pr h with h' | h'
  · simp at h'
  · exact h'

/-- The collected map has at most one entry per record. -/
theorem collectMap_length (recs : List RawSearchResult) :
    (collectMap recs).length ≤ recs.length := by
  have h := foldl_insert_length recs []
  simpa using h

/-! ## Helper lemmas on card extraction -/

/-- Inversion of a successful single-card extraction. -/
theorem extractCard_eq_some (c : Card) (r : RawSearchResult)
    (h : extractCard c = some r) :
    ∃ titleEl u descEl, c.titleAnchors.head? = some titleEl ∧ titleEl.href = some u ∧
      c.contents.head? = some descEl ∧
      r = ⟨rustTrim titleEl.innerHtml, u, rustTrim descEl.innerHtml, ["searx"]⟩ := by
  unfold extractCard at h
  cases h1 : c.titleAnchors.head? with
  | none => rw [h1] at h; simp at h
  | some titleEl =>
    rw [h1] at h
    simp only at h
    cases h2 : titleEl.href with
    | none => rw [h2] at h; simp at h
    | some u =>
      rw [h2] at h
      simp only at h
      cases h3 : c.contents.head? with
      | none => rw [h3] at h; simp at h
      | some descEl =>
        rw [h3] at h
        simp only [Option.some.injEq] at h
        exact ⟨titleEl, u, descEl, rfl, h2, rfl, h.symm⟩

/-- A successful extraction of all cards yields one record per card. -/
theorem extractAll_length :
    ∀ (cs : List Card) (rs : List RawSearchResult),
      extractAll cs = some rs → rs.length = cs.length := by
  intro cs
  induction cs with
  | nil =>
    intro rs h
    simp only [extractAll, Option.some.injEq] at h
    simp [← h]
  | cons c cs ih =>
    intro rs h
    simp only [extractAll] at h
    cases h1 : extractCard c with
    | none => rw [h1] at h; simp at h
    | some r =>
      rw [h1] at h
      cases h2 : extractAll cs with
      | none => rw [h2] at h; simp at h
      | some rs' =>
        rw [h2] at h
        simp only [Option.some.injEq] at h
        subst h
        simp [ih rs' h2]

/-- Every record of a successful extraction comes from one of the cards. -/
theorem extractAll_mem :
    ∀ (cs : List Card) (rs : List RawSearchResult),
      extractAll cs = some rs → ∀ r ∈ rs, ∃ c ∈ cs, extractCard c = some r := by
  intro cs
  induction cs with
  | nil =>
    intro rs h r hr
    simp only [extractAll, Option.some.injEq] at h
    subst h
    simp at hr
  | cons c cs ih =>
    intro rs h r hr
    simp only [extractAll] at h
    cases h1 : extractCard c with
    | none => rw [h1] at h; simp at h
    | some r' =>
      rw [h1] at h
      cases h2 : extractAll cs with
      | none => rw [h2] at h; simp at h
      | some rs' =>
        rw [h2] at h
        simp only [Option.some.injEq] at h
        subst h
        rcases List.mem_cons.mp hr with hr | hr
        · exact ⟨c, List.mem_cons_self _ _, hr ▸ h1⟩
        · obtain ⟨c', hc', he⟩ := ih rs' h2 r hr
          exact ⟨c', List.mem_cons_of_mem _ hc', he⟩

/-! ## Inversion of a successful adapter call -/

/-- A successful scraping stage went through a panic-free extraction of
every card followed by the `collect` into the map. -/
theorem scrapeDocument_ok_inv (document : HtmlDoc) (sc : String → Bool)
    (m : List (String × RawSearchResult))
    (h : scrapeDocument document sc = Outcome.ok m) :
    ∃ recs, extractAll document.resultCards = some recs ∧ m = collectMap recs := by
  unfold scrapeDocument at h
  by_cases hsc0 : sc selNoResult = true
  case neg => rw [if_neg hsc0] at h; exact absurd h (by simp)
  rw [if_pos hsc0] at h
  by_cases hsent : sentinelHit document = true
  case pos => rw [if_pos hsent] at h; exact absurd h (by simp)
  rw [if_neg hsent] at h
  by_cases hsc1 : sc selResult = true
  case neg => rw [if_neg hsc1] at h; exact absurd h (by simp)
  rw [if_pos hsc1] at h
  by_cases hsc2 : sc selTitle = true
  case neg => rw [if_neg hsc2] at h; exact absurd h (by simp)
  rw [if_pos hsc2] at h
  rw [if_pos hsc2] at h
  by_cases hsc3 : sc selDesc = true
  case neg => rw [if_neg hsc3] at h; exact absurd h (by simp)
  rw [if_pos hsc3] at h
  cases hext : extractAll document.resultCards with
  | none => rw [hext] at h; exact absurd h (by simp)
  | some recs =>
    rw [hext] at h
    exact ⟨recs, rfl, (Outcome.ok.inj h).symm⟩

/-- With a well-formed header map, a send failure surfaces as
`RequestError` with the transport diagnostic. -/
theorem results_sendFailure_eq (q : String) (p : Nat) (ua : String)
    (hv : String → Bool) (d : String) (ph : String → HtmlDoc) (sc : String → Bool)
    (hm : HeaderMap) (hok : buildHeaderMap hv ua = Except.ok hm) :
    results q p ua hv (Transport.sendFailure d) ph sc
      = Outcome.err EngineError.RequestError (some d) := by
  unfold results buildRequest
  rw [hok]

/-- With a well-formed header map, a body-read failure surfaces as
`RequestError` with the transport diagnostic. -/
theorem results_textError_eq (q : String) (p : Nat) (ua : String)
    (hv : String → Bool) (status : Nat) (d : String) (ph : String → HtmlDoc)
    (sc : String → Bool) (hm : HeaderMap)
    (hok : buildHeaderMap hv ua = Except.ok hm) :
    results q p ua hv (Transport.response status (Except.error d)) ph sc
      = Outcome.err EngineError.RequestError (some d) := by
  unfold results buildRequest
  rw [hok]

/-- With a well-formed header map and a readable body, the call reduces
to the scraping stage on the parsed document; the status code plays no
part. -/
theorem results_response_eq (q : String) (p : Nat) (ua : String)
    (hv : String → Bool) (status : Nat) (body : String) (ph : String → HtmlDoc)
    (sc : String → Bool) (hm : HeaderMap)
    (hok : buildHeaderMap hv ua = Except.ok hm) :
    results q p ua hv (Transport.response status (Except.ok body)) ph sc
      = scrapeDocument (ph body) sc := by
  unfold results buildRequest
  rw [hok]

/-- Exhaustive case analysis of the scraping stage, following the
source's control flow. -/
theorem scrapeDocument_cases (document : HtmlDoc) (sc : String → Bool) :
    (sc selNoResult = false ∧ scrapeDocument document sc
      = Outcome.err EngineError.UnexpectedError
          (some ("invalid CSS selector: " ++ selNoResult))) ∨
    (sc selNoResult = true ∧ sentinelHit document = true ∧
      scrapeDocument document sc = Outcome.err EngineError.EmptyResultSet none) ∨
    (sc selNoResult = true ∧ sentinelHit document = false ∧ sc selResult = false ∧
      scrapeDocument document sc = Outcome.err EngineError.UnexpectedError
        (some ("invalid CSS selector: " ++ selResult))) ∨
    (sc selNoResult = true ∧ sentinelHit document = false ∧ sc selResult = true ∧
      sc selTitle = false ∧
      scrapeDocument document sc = Outcome.err EngineError.UnexpectedError
        (some ("invalid CSS selector: " ++ selTitle))) ∨
    (sc selNoResult = true ∧ sentinelHit document = false ∧ sc selResult = true ∧
      sc selTitle = true ∧ sc selDesc = false ∧
      scrapeDocument document sc = Outcome.err EngineError.UnexpectedError
        (some ("invalid CSS selector: " ++ selDesc))) ∨
    (sc selNoResult = true ∧ sentinelHit document = false ∧ sc selResult = true ∧
      sc selTitle = true ∧ sc selDesc = true ∧
      extractAll document.resultCards = none ∧
      scrapeDocument document sc = Outcome.panicked) ∨
    (sc selNoResult = true ∧ sentinelHit document = false ∧ sc selResult = true ∧
      sc selTitle = true ∧ sc selDesc = true ∧
      ∃ recs, extractAll document.resultCards = some recs ∧
        scrapeDocument document sc = Outcome.ok (collectMap recs)) := by
  by_cases h0 : sc selNoResult = true
  · by_cases hs : sentinelHit document = true
    · exact Or.inr (Or.inl ⟨h0, hs, by unfold scrapeDocument; rw [if_pos h0, if_pos hs]⟩)
    · by_cases h1 : sc selResult = true
      · by_cases h2 : sc selTitle = true
        · by_cases h3 : sc selDesc = true
          · cases hext : extractAll document.resultCards with
            | none =>
              refine Or.inr (Or.inr (Or.inr (Or.inr (Or.inr (Or.inl
                ⟨h0, Bool.eq_false_iff.mpr hs, h1, h2, h3, rfl, ?_⟩)))))
              unfold scrapeDocument
              rw [if_pos h0, if_neg hs, if_pos h1, if_pos h2, if_pos h2,
                if_pos h3, hext]
            | some recs =>
              refine Or.inr (Or.inr (Or.inr (Or.inr (Or.inr (Or.inr
                ⟨h0, Bool.eq_false_iff.mpr hs, h1, h2, h3, recs, rfl, ?_⟩)))))
              unfold scrapeDocument
              rw [if_pos h0, if_neg hs, if_pos h1, if_pos h2, if_pos h2,
                if_pos h3, hext]
          · refine Or.inr (Or.inr (Or.inr (Or.inr (Or.inl
              ⟨h0, Bool.eq_false_iff.mpr hs, h1, h2, Bool.eq_false_iff.mpr h3, ?_⟩))))
            unfold scrapeDocument
            rw [if_pos h0, if_neg hs, if_pos h1, if_pos h2, if_pos h2, if_neg h3]
        · refine Or.inr (Or.inr (Or.inr (Or.inl
            ⟨h0, Bool.eq_false_iff.mpr hs, h1, Bool.eq_false_iff.mpr h2, ?_⟩)))
          unfold scrapeDocument
          rw [if_pos h0, if_neg hs, if_pos h1, if_neg h2]
      · refine Or.inr (Or.inr (Or.inl
          ⟨h0, Bool.eq_false_iff.mpr hs, Bool.eq_false_iff.mpr h1, ?_⟩))
        unfold scrapeDocument
        rw [if_pos h0, if_neg hs, if_neg h1]
  · refine Or.inl ⟨Bool.eq_false_iff.mpr h0, ?_⟩
    unfold scrapeDocument
    rw [if_neg h0]

/-- A successful call went through a successful transport, a successful
(panic-free) extraction of every card, and a `collect` into the map. -/
theorem results_ok_inv (q : String) (p : Nat) (ua : String) (hv : String → Bool)
    (t : Transport) (ph : String → HtmlDoc) (sc : String → Bool)
    (m : List (String × RawSearchResult))
    (h : results q p ua hv t ph sc = Outcome.ok m) :
    ∃ status body recs, t = Transport.response status (Except.ok body) ∧
      extractAll (ph body).resultCards = some recs ∧ m = collectMap recs := by
  unfold results at h
  cases hbr : buildRequest hv q p ua with
  | error e =>
    rw [hbr] at h
    exact absurd (show Outcome.err e none = Outcome.ok m from h) (by simp)
  | ok req =>
    rw [hbr] at h
    cases t with
    | sendFailure d =>
      exact absurd
        (show Outcome.err EngineError.RequestError (some d) = Outcome.ok m from h)
        (by simp)
    | response status body =>
      cases body with
      | error d =>
        exact absurd
          (show Outcome.err EngineError.RequestError (some d) = Outcome.ok m from h)
          (by simp)
      | ok body =>
        have h2 : scrapeDocument (ph body) sc = Outcome.ok m := h
        obtain ⟨recs, hext, hm⟩ := scrapeDocument_ok_inv (ph body) sc m h2
        exact ⟨status, body, recs, rfl, hext, hm⟩

/-! ## Claim C1 -/

/-- C1: the claim states that a result card lacking an expected
sub-element (title anchor, href, or description node) is skipped and the
mapping is still built from the remaining cards. The code instead calls
`.unwrap()` on the missing element: on a body parsed to one well-formed
card and one card with no `h3>a` anchor, the whole adapter call panics
instead of returning the well-formed card's mapping. -/
theorem c1_malformed_card_panics :
    results "q" 1 "ua" allTrue (okTransport "b") (constHtml mixedDoc) allTrue
      = Outcome.panicked := rfl

/-! ## Claim C2 -/

/-- C2 counterexample: a body whose only `#urls>.dialog-error>p` node
carries the sentinel phrase does not yield `EmptyResultSet` — the call
returns an empty success mapping, because the code examines only the
second match (`.nth(1)`). -/
theorem c2_counterexample :
    singleSentinelDoc.dialogErrorPs.map Element.innerHtml = [sentinelText] ∧
    results "q" 1 "ua" allTrue (okTransport "b")
      (constHtml singleSentinelDoc) allTrue = Outcome.ok [] :=
  ⟨rfl, rfl⟩

/-- C2 (amended): with well-formed headers and compiling selectors, the
call returns `EmptyResultSet` iff the second node matching
`#urls>.dialog-error>p` (index 1) has inner HTML equal to the sentinel
phrase; and a body with no sentinel hit and zero result cards yields a
successful empty mapping. -/
theorem c2_amended_sentinel_iff (q : String) (p : Nat) (ua : String)
    (hv sc : String → Bool) (status : Nat) (body : String) (ph : String → HtmlDoc)
    (hm : HeaderMap) (hok : buildHeaderMap hv ua = Except.ok hm)
    (h0 : sc selNoResult = true) (h1 : sc selResult = true)
    (h2 : sc selTitle = true) (h3 : sc selDesc = true) :
    ((results q p ua hv (Transport.response status (Except.ok body)) ph sc
        = Outcome.err EngineError.EmptyResultSet none)
      ↔ sentinelHit (ph body) = true) ∧
    (sentinelHit (ph body) = false → (ph body).resultCards = [] →
      results q p ua hv (Transport.response status (Except.ok body)) ph sc
        = Outcome.ok []) := by
  rw [results_response_eq q p ua hv status body ph sc hm hok]
  constructor
  · constructor
    · intro h
      rcases scrapeDocument_cases (ph body) sc with
        ⟨ha, hb⟩ | ⟨ha, hb, hc⟩ | ⟨ha, hb, hc, hd⟩ | ⟨ha, hb, hc, hd, he⟩ |
        ⟨ha, hb, hc, hd, he, hf⟩ | ⟨ha, hb, hc, hd, he, hf, hg⟩ |
        ⟨ha, hb, hc, hd, he, recs, hf, hg⟩
      · rw [h0] at ha; cases ha
      · exact hb
      · rw [hd] at h; simp at h
      · rw [he] at h; simp at h
      · rw [hf] at h; simp at h
      · rw [hg] at h; simp at h
      · rw [hg] at h; simp at h
    · intro hs
      rcases scrapeDocument_cases (ph body) sc with
        ⟨ha, hb⟩ | ⟨ha, hb, hc⟩ | ⟨ha, hb, hc, hd⟩ | ⟨ha, hb, hc, hd, he⟩ |
        ⟨ha, hb, hc, hd, he, hf⟩ | ⟨ha, hb, hc, hd, he, hf, hg⟩ |
        ⟨ha, hb, hc, hd, he, recs, hf, hg⟩
      · rw [h0] at ha; cases ha
      · exact hc
      · rw [hs] at hb; cases hb
      · rw [hs] at hb; cases hb
      · rw [hs] at hb; cases hb
      · rw [hs] at hb; cases hb
      · rw [hs] at hb; cases hb
  · intro hs hcards
    unfold scrapeDocument
    rw [if_pos h0, if_neg (Bool.eq_false_iff.mp hs), if_pos h1, if_pos h2,
      if_pos h2, if_pos h3, hcards]
    rfl

/-- C2 witness: instantiation at a concrete body whose second dialog
node carries the sentinel. -/
theorem c2_witness :
    ((results "q" 1 "ua" allTrue (Transport.response 200 (Except.ok "b"))
        (constHtml doubleSentinelDoc) allTrue
        = Outcome.err EngineError.EmptyResultSet none)
      ↔ sentinelHit doubleSentinelDoc = true) ∧
    (sentinelHit doubleSentinelDoc = false → doubleSentinelDoc.resultCards = [] →
      results "q" 1 "ua" allTrue (Transport.response 200 (Except.ok "b"))
        (constHtml doubleSentinelDoc) allTrue = Outcome.ok []) :=
  c2_amended_sentinel_iff "q" 1 "ua" allTrue allTrue 200 "b"
    (constHtml doubleSentinelDoc)
    ⟨"ua", refererValue, contentTypeValue, cookieValue⟩ rfl rfl rfl rfl rfl

/-! ## Claim C3 -/

/-- C3 counterexample: a response with non-success HTTP status 500 whose
body reads fine is not reported as `RequestError`; the status code is
never consulted and the call succeeds with an empty mapping. -/
theorem c3_counterexample :
    results "q" 1 "ua" allTrue (Transport.response 500 (Except.ok ""))
      (constHtml emptyDoc) allTrue = Outcome.ok [] := rfl

/-- C3 (amended): with well-formed headers, a failure of the send or of
the body read yields `RequestError` carrying the underlying transport
diagnostic; a non-success HTTP status is not a failure — the outcome is
identical for every status code. -/
theorem c3_amended_transport (q : String) (p : Nat) (ua : String)
    (hv : String → Bool) (ph : String → HtmlDoc) (sc : String → Bool)
    (hm : HeaderMap) (hok : buildHeaderMap hv ua = Except.ok hm) :
    (∀ d, results q p ua hv (Transport.sendFailure d) ph sc
        = Outcome.err EngineError.RequestError (some d)) ∧
    (∀ status d,
        results q p ua hv (Transport.response status (Except.error d)) ph sc
          = Outcome.err EngineError.RequestError (some d)) ∧
    (∀ status status' body,
        results q p ua hv (Transport.response status (Except.ok body)) ph sc
          = results q p ua hv (Transport.response status' (Except.ok body)) ph sc) := by
  refine ⟨fun d => results_sendFailure_eq q p ua hv d ph sc hm hok,
    fun status d => results_textError_eq q p ua hv status d ph sc hm hok,
    fun status status' body => ?_⟩
  rw [results_response_eq q p ua hv status body ph sc hm hok,
    results_response_eq q p ua hv status' body ph sc hm hok]

/-- C3 witness: instantiation at concrete transport outcomes, including
status 500 versus status 200 on the same body. -/
theorem c3_witness :
    results "q" 1 "ua" allTrue (Transport.sendFailure "dns failure")
        (constHtml emptyDoc) allTrue
      = Outcome.err EngineError.RequestError (some "dns failure") ∧
    results "q" 1 "ua" allTrue (Transport.response 500 (Except.error "read failed"))
        (constHtml emptyDoc) allTrue
      = Outcome.err EngineError.RequestError (some "read failed") ∧
    results "q" 1 "ua" allTrue (Transport.response 500 (Except.ok "b"))
        (constHtml emptyDoc) allTrue
      = results "q" 1 "ua" allTrue (Transport.response 200 (Except.ok "b"))
        (constHtml emptyDoc) allTrue := by
  obtain ⟨hA, hB, hC⟩ := c3_amended_transport "q" 1 "ua" allTrue
    (constHtml emptyDoc) allTrue
    ⟨"ua", refererValue, contentTypeValue, cookieValue⟩ rfl
  exact ⟨hA "dns failure", hB 500 "read failed", hC 500 200 "b"⟩

/-! ## Claims C4 and C5 -/

/-- Every record of a successful extraction is tagged with exactly the
engine list `["searx"]`. -/
theorem extractAll_engines (cs : List Card) (rs : List RawSearchResult)
    (h : extractAll cs = some rs) : ∀ r ∈ rs, r.engines = ["searx"] := by
  intro r hr
  obtain ⟨c, _, hc⟩ := extractAll_mem cs rs h r hr
  obtain ⟨tE, u, dE, _, _, _, he⟩ := extractCard_eq_some c r hc
  rw [he]

/-- Every record of a successful extraction has trimmed title and
description. -/
theorem extractAll_trimmed (cs : List Card) (rs : List RawSearchResult)
    (h : extractAll cs = some rs) :
    ∀ r ∈ rs, edgeTrimmed r.title = true ∧ edgeTrimmed r.description = true := by
  intro r hr
  obtain ⟨c, _, hc⟩ := extractAll_mem cs rs h r hr
  obtain ⟨tE, u, dE, _, _, _, he⟩ := extractCard_eq_some c r hc
  rw [he]
  exact ⟨edgeTrimmed_rustTrim _, edgeTrimmed_rustTrim _⟩

/-- C4: on a successful call, one record is built per extracted card,
the map is the collection of those records, each entry's key is its
record's `visiting_url`, and every record's engine set is exactly
`["searx"]`. -/
theorem c4_mapping_per_card (q : String) (p : Nat) (ua : String)
    (hv : String → Bool) (status : Nat) (body : String) (ph : String → HtmlDoc)
    (sc : String → Bool) (m : List (String × RawSearchResult))
    (h : results q p ua hv (Transport.response status (Except.ok body)) ph sc
      = Outcome.ok m) :
    (∃ recs, extractAll (ph body).resultCards = some recs ∧
      recs.length = (ph body).resultCards.length ∧ m = collectMap recs ∧
      ∀ r ∈ recs, r.engines = ["searx"]) ∧
    ∀ pr ∈ m, pr.1 = pr.2.visiting_url ∧ pr.2.engines = ["searx"] := by
  obtain ⟨status', body', recs, ht, hext, hm⟩ :=
    results_ok_inv q p ua hv _ ph sc m h
  injection ht with hst hbo
  injection hbo with hbo
  subst hst
  subst hbo
  subst hm
  refine ⟨⟨recs, hext, extractAll_length _ _ hext, rfl,
    extractAll_engines _ _ hext⟩, ?_⟩
  intro pr hpr
  obtain ⟨r, hr, he⟩ := collectMap_mem recs pr hpr
  rw [he]
  exact ⟨rfl, extractAll_engines _ _ hext r hr⟩

/-- C4 witness: the single well-formed card of `goodDoc` produces the
entry keyed by its URL with engine set `["searx"]`. -/
theorem c4_witness :
    ("https://good.example/", goodRec).1
      = ("https://good.example/", goodRec).2.visiting_url ∧
    ("https://good.example/", goodRec).2.engines = ["searx"] := by
  have hall := (c4_mapping_per_card "q" 1 "ua" allTrue 200 "b" (constHtml goodDoc)
    allTrue [("https://good.example/", goodRec)] (by decide)).2
  exact hall ("https://good.example/", goodRec) (by simp)

/-- C5: on a successful call, every stored title and description has no
leading or trailing white space. -/
theorem c5_trim_invariant (q : String) (p : Nat) (ua : String) (hv : String → Bool)
    (t : Transport) (ph : String → HtmlDoc) (sc : String → Bool)
    (m : List (String × RawSearchResult))
    (h : results q p ua hv t ph sc = Outcome.ok m) :
    ∀ pr ∈ m, edgeTrimmed pr.2.title = true ∧ edgeTrimmed pr.2.description = true := by
  obtain ⟨status, body, recs, ht, hext, hm⟩ := results_ok_inv q p ua hv t ph sc m h
  intro pr hpr
  rw [hm] at hpr
  obtain ⟨r, hr, he⟩ := collectMap_mem recs pr hpr
  rw [he]
  exact extractAll_trimmed _ _ hext r hr

/-- C5 witness: the record scraped from a card with white space around
title and description is stored trimmed. -/
theorem c5_witness :
    edgeTrimmed goodRec.title = true ∧ edgeTrimmed goodRec.description = true := by
  have hall := c5_trim_invariant "q" 1 "ua" allTrue (okTransport "b")
    (constHtml goodDoc) allTrue [("https://good.example/", goodRec)] (by decide)
  exact hall ("https://good.example/", goodRec) (by simp)

/-! ## Claim C6 -/

/-- C6: whenever a selector compilation the control flow reaches fails,
the call returns `UnexpectedError` with the literal offending selector
string attached; and with a successful transport no selector failure can
surface as `RequestError`, while `EmptyResultSet` arises only from the
sentinel. -/
theorem c6_selector_failure (q : String) (p : Nat) (ua : String)
    (hv : String → Bool) (status : Nat) (body : String) (ph : String → HtmlDoc)
    (sc : String → Bool) (hm : HeaderMap)
    (hok : buildHeaderMap hv ua = Except.ok hm) :
    (sc selNoResult = false →
      results q p ua hv (Transport.response status (Except.ok body)) ph sc
        = Outcome.err EngineError.UnexpectedError
            (some ("invalid CSS selector: " ++ selNoResult))) ∧
    (sc selNoResult = true → sentinelHit (ph body) = false → sc selResult = false →
      results q p ua hv (Transport.response status (Except.ok body)) ph sc
        = Outcome.err EngineError.UnexpectedError
            (some ("invalid CSS selector: " ++ selResult))) ∧
    (sc selNoResult = true → sentinelHit (ph body) = false → sc selResult = true →
      sc selTitle = false →
      results q p ua hv (Transport.response status (Except.ok body)) ph sc
        = Outcome.err EngineError.UnexpectedError
            (some ("invalid CSS selector: " ++ selTitle))) ∧
    (sc selNoResult = true → sentinelHit (ph body) = false → sc selResult = true →
      sc selTitle = true → sc selDesc = false →
      results q p ua hv (Transport.response status (Except.ok body)) ph sc
        = Outcome.err EngineError.UnexpectedError
            (some ("invalid CSS selector: " ++ selDesc))) ∧
    (∀ d, results q p ua hv (Transport.response status (Except.ok body)) ph sc
        ≠ Outcome.err EngineError.RequestError d) ∧
    (∀ d, results q p ua hv (Transport.response status (Except.ok body)) ph sc
        = Outcome.err EngineError.EmptyResultSet d → sentinelHit (ph body) = true) := by
  rw [results_response_eq q p ua hv status body ph sc hm hok]
  refine ⟨?_, ?_, ?_, ?_, ?_, ?_⟩
  · intro hf
    unfold scrapeDocument
    rw [if_neg (Bool.eq_false_iff.mp hf)]
  · intro h0 hs hf
    unfold scrapeDocument
    rw [if_pos h0, if_neg (Bool.eq_false_iff.mp hs), if_neg (Bool.eq_false_iff.mp hf)]
  · intro h0 hs h1 hf
    unfold scrapeDocument
    rw [if_pos h0, if_neg (Bool.eq_false_iff.mp hs), if_pos h1,
      if_neg (Bool.eq_false_iff.mp hf)]
  · intro h0 hs h1 h2 hf
    unfold scrapeDocument
    rw [if_pos h0, if_neg (Bool.eq_false_iff.mp hs), if_pos h1, if_pos h2,
      if_pos h2, if_neg (Bool.eq_false_iff.mp hf)]
  · intro d hcontra
    rcases scrapeDocument_cases (ph body) sc with
      ⟨ha, hb⟩ | ⟨ha, hb, hc⟩ | ⟨ha, hb, hc, hd⟩ | ⟨ha, hb, hc, hd, he⟩ |
      ⟨ha, hb, hc, hd, he, hf⟩ | ⟨ha, hb, hc, hd, he, hf, hg⟩ |
      ⟨ha, hb, hc, hd, he, recs, hf, hg⟩
    · rw [hb] at hcontra; simp at hcontra
    · rw [hc] at hcontra; simp at hcontra
    · rw [hd] at hcontra; simp at hcontra
    · rw [he] at hcontra; simp at hcontra
    · rw [hf] at hcontra; simp at hcontra
    · rw [hg] at hcontra; simp at hcontra
    · rw [hg] at hcontra; simp at hcontra
  · intro d hempty
    rcases scrapeDocument_cases (ph body) sc with
      ⟨ha, hb⟩ | ⟨ha, hb, hc⟩ | ⟨ha, hb, hc, hd⟩ | ⟨ha, hb, hc, hd, he⟩ |
      ⟨ha, hb, hc, hd, he, hf⟩ | ⟨ha, hb, hc, hd, he, hf, hg⟩ |
      ⟨ha, hb, hc, hd, he, recs, hf, hg⟩
    · rw [hb] at hempty; simp at hempty
    · exact hb
    · rw [hd] at hempty; simp at hempty
    · rw [he] at hempty; simp at hempty
    · rw [hf] at hempty; simp at hempty
    · rw [hg] at hempty; simp at hempty
    · rw [hg] at hempty; simp at hempty

/-- C6 witness: a compilation oracle failing exactly on `.result` makes
the call return `UnexpectedError` carrying that selector string. -/
theorem c6_witness :
    results "q" 1 "ua" allTrue (Transport.response 200 (Except.ok "b"))
      (constHtml emptyDoc) scNoDotResult
      = Outcome.err EngineError.UnexpectedError
          (some ("invalid CSS selector: " ++ selResult)) := by
  obtain ⟨hA, hB, hC, hD, hE, hF⟩ := c6_selector_failure "q" 1 "ua" allTrue 200 "b"
    (constHtml emptyDoc) scNoDotResult
    ⟨"ua", refererValue, contentTypeValue, cookieValue⟩ rfl
  exact hB rfl rfl rfl

/-! ## Claim C7 -/

/-- C7 counterexample: a successful call whose single card's anchor has
an empty `href` returns a record with an empty `visiting_url`. -/
theorem c7_counterexample :
    results "q" 1 "ua" allTrue (okTransport "b") (constHtml emptyHrefDoc) allTrue
      = Outcome.ok [("", ⟨"t", "", "d", ["searx"]⟩)] := by decide

/-- C7 (amended): every record of a successful mapping has a non-empty
engines set; `visiting_url` is the scraped `href` verbatim, so it is
non-empty provided every card's first title anchor has a non-empty
`href`. -/
theorem c7_amended_nonempty (q : String) (p : Nat) (ua : String)
    (hv : String → Bool) (status : Nat) (body : String) (ph : String → HtmlDoc)
    (sc : String → Bool) (m : List (String × RawSearchResult))
    (h : results q p ua hv (Transport.response status (Except.ok body)) ph sc
      = Outcome.ok m) :
    (∀ pr ∈ m, pr.2.engines ≠ []) ∧
    (cardHrefsNonempty (ph body).resultCards = true →
      ∀ pr ∈ m, pr.2.visiting_url ≠ "") := by
  obtain ⟨status', body', recs, ht, hext, hm⟩ := results_ok_inv q p ua hv _ ph sc m h
  injection ht with hst hbo
  injection hbo with hbo
  subst hst
  subst hbo
  subst hm
  constructor
  · intro pr hpr
    obtain ⟨r, hr, he⟩ := collectMap_mem recs pr hpr
    rw [he]
    have heng := extractAll_engines _ _ hext r hr
    intro hnil
    rw [heng] at hnil
    cases hnil
  · intro hcond pr hpr
    obtain ⟨r, hr, he⟩ := collectMap_mem recs pr hpr
    obtain ⟨c, hc, hcx⟩ := extractAll_mem _ _ hext r hr
    obtain ⟨tE, u, dE, h1, h2, h3, he'⟩ := extractCard_eq_some c r hcx
    have hp := List.all_eq_true.mp hcond c hc
    rw [h1] at hp
    simp only at hp
    rw [h2] at hp
    simp only [Bool.not_eq_true'] at hp
    rw [he, he']
    intro hemp
    have hemp' : u = "" := hemp
    rw [hemp'] at hp
    simp at hp

/-- C7 witness: on a card with a non-empty `href`, the surviving record
has a non-empty engine set and a non-empty `visiting_url`. -/
theorem c7_witness :
    goodRec.engines ≠ [] ∧ goodRec.visiting_url ≠ "" := by
  obtain ⟨hA, hB⟩ := c7_amended_nonempty "q" 1 "ua" allTrue 200 "b"
    (constHtml goodDoc) allTrue [("https://good.example/", goodRec)] (by decide)
  exact ⟨hA ("https://good.example/", goodRec) (by simp),
    hB (by decide) ("https://good.example/", goodRec) (by simp)⟩

/-! ## Claim C8 -/

/-- C8: the constructed request targets the search path with `q` and
`pageno` as query parameters, and its headers are the caller's user
agent, the spoofed referer, the content type and the engine-specific
preference cookie — a pure function of the static templates plus the
user-agent argument. -/
theorem c8_request_shape (q : String) (p : Nat) (ua : String) (hv : String → Bool)
    (hm : HeaderMap) (hok : buildHeaderMap hv ua = Except.ok hm) :
    buildRequest hv q p ua = Except.ok ⟨buildUrl q p, hm⟩ ∧
    buildUrl q p = "https://searx.work/search?q=" ++ q ++ "&pageno=" ++ toString p ∧
    hm.userAgent = ua ∧ hm.referer = refererValue ∧
    hm.contentType = contentTypeValue ∧ hm.cookie = cookieValue := by
  have hinv : hm = ⟨ua, refererValue, contentTypeValue, cookieValue⟩ := by
    unfold buildHeaderMap at hok
    split at hok
    · split at hok
      · split at hok
        · split at hok
          · exact (Except.ok.inj hok).symm
          · simp at hok
        · simp at hok
      · simp at hok
    · simp at hok
  subst hinv
  refine ⟨?_, rfl, rfl, rfl, rfl, rfl⟩
  unfold buildRequest
  rw [hok]

/-- C8 witness: instantiation at a concrete query, page and user agent. -/
theorem c8_witness :
    buildRequest allTrue "rust language" 2 "Mozilla/5.0"
      = Except.ok ⟨buildUrl "rust language" 2,
          ⟨"Mozilla/5.0", refererValue, contentTypeValue, cookieValue⟩⟩ ∧
    buildUrl "rust language" 2
      = "https://searx.work/search?q=" ++ "rust language" ++ "&pageno=" ++ toString 2 ∧
    HeaderMap.userAgent ⟨"Mozilla/5.0", refererValue, contentTypeValue, cookieValue⟩
      = "Mozilla/5.0" ∧
    HeaderMap.referer ⟨"Mozilla/5.0", refererValue, contentTypeValue, cookieValue⟩
      = refererValue ∧
    HeaderMap.contentType ⟨"Mozilla/5.0", refererValue, contentTypeValue, cookieValue⟩
      = contentTypeValue ∧
    HeaderMap.cookie ⟨"Mozilla/5.0", refererValue, contentTypeValue, cookieValue⟩
      = cookieValue :=
  c8_request_shape "rust language" 2 "Mozilla/5.0" allTrue
    ⟨"Mozilla/5.0", refererValue, contentTypeValue, cookieValue⟩ rfl

/-! ## Claim C9 -/

/-- C9: on a successful call the returned mapping never holds two
entries with the same key, and it holds at most one entry per result
card (so duplicate destination URLs collapse). -/
theorem c9_dedup_keys (q : String) (p : Nat) (ua : String) (hv : String → Bool)
    (status : Nat) (body : String) (ph : String → HtmlDoc) (sc : String → Bool)
    (m : List (String × RawSearchResult))
    (h : results q p ua hv (Transport.response status (Except.ok body)) ph sc
      = Outcome.ok m) :
    (m.map Prod.fst).Nodup ∧ m.length ≤ (ph body).resultCards.length := by
  obtain ⟨status', body', recs, ht, hext, hm⟩ := results_ok_inv q p ua hv _ ph sc m h
  injection ht with hst hbo
  injection hbo with hbo
  subst hst
  subst hbo
  subst hm
  refine ⟨collectMap_keys_nodup recs, ?_⟩
  have h1 := collectMap_length recs
  have h2 := extractAll_length _ _ hext
  omega

/-- C9 witness: two cards sharing one destination URL collapse to a
single entry — strictly fewer entries than cards. -/
theorem c9_witness :
    (([("https://dup.example/", dupRecB)].map Prod.fst).Nodup ∧
      [("https://dup.example/", dupRecB)].length
        ≤ (constHtml dupDoc "b").resultCards.length) ∧
    [("https://dup.example/", dupRecB)].length
      < (constHtml dupDoc "b").resultCards.length :=
  ⟨c9_dedup_keys "q" 1 "ua" allTrue 200 "b" (constHtml dupDoc) allTrue
      [("https://dup.example/", dupRecB)] (by decide),
    by decide⟩

/-! ## Claim C10 -/

/-- C10: the header map depends only on the user-agent argument — two
calls with the same user agent but different queries and pages build
identical headers (and agree on error behavior), while the query and
page only determine the request URL. -/
theorem c10_headers_only_ua (hv : String → Bool) (q1 q2 : String) (p1 p2 : Nat)
    (ua : String) :
    Except.map Request.headers (buildRequest hv q1 p1 ua)
      = Except.map Request.headers (buildRequest hv q2 p2 ua) ∧
    (∀ r, buildRequest hv q1 p1 ua = Except.ok r → r.url = buildUrl q1 p1) ∧
    (∀ r, buildRequest hv q2 p2 ua = Except.ok r → r.url = buildUrl q2 p2) := by
  unfold buildRequest
  cases hok : buildHeaderMap hv ua with
  | error e =>
    refine ⟨rfl, ?_, ?_⟩
    · intro r hr
      exact absurd (show Except.error e = Except.ok r from hr) (by simp)
    · intro r hr
      exact absurd (show Except.error e = Except.ok r from hr) (by simp)
  | ok hm =>
    refine ⟨rfl, ?_, ?_⟩
    · intro r hr
      have hr' : Except.ok (⟨buildUrl q1 p1, hm⟩ : Request) = Except.ok r := hr
      cases Except.ok.inj hr'
      rfl
    · intro r hr
      have hr' : Except.ok (⟨buildUrl q2 p2, hm⟩ : Request) = Except.ok r := hr
      cases Except.ok.inj hr'
      rfl

/-- C10 witness: two calls with the same user agent and different
query/page build the same headers; the URL is the one built from each
call's own query and page. -/
theorem c10_witness :
    Except.map Request.headers (buildRequest allTrue "alpha" 1 "UA")
      = Except.map Request.headers (buildRequest allTrue "beta" 9 "UA") ∧
    Request.url ⟨buildUrl "alpha" 1,
        ⟨"UA", refererValue, contentTypeValue, cookieValue⟩⟩ = buildUrl "alpha" 1 := by
  obtain ⟨hA, hB, hC⟩ := c10_headers_only_ua allTrue "alpha" "beta" 1 9 "UA"
  exact ⟨hA, hB _ rfl⟩
